import Mathlib

/-!
Verification of the storage-controllers repository (Dell PERC 8xx backend and
the facade module) against its natural-language specification.

The embedding mirrors the two Python source files:
* `src/storage_controllers/controllers/perc8xx.py` — the reference backend;
* `src/utils/controller.py` — the public operation facade and backend selector.

Python's `xml.etree.ElementTree` elements are modelled by `Elem`; the external
management tool is modelled by an environment `Env` mapping an invocation time
and a command to a `ToolResult`; every function that shells out threads an
explicit time counter, one tick per spawned process.  Python exceptions are
modelled by `Except PyErr`.
-/

/-- A parsed XML element: a tag, optional text, and child elements, mirroring
`xml.etree.ElementTree.Element`. -/
structure Elem where
  tag : String
  text : Option String
  children : List Elem

/-- `Element.findall(tag)`: all direct children with the given tag, in
document order. -/
def Elem.findall (e : Elem) (t : String) : List Elem :=
  e.children.filter (fun c => c.tag = t)

/-- `Element.find(tag)`: the first direct child with the given tag, if any. -/
def Elem.find (e : Elem) (t : String) : Option Elem :=
  (e.findall t).head?

/-- Python exception values raised by the embedded code. -/
inductive PyErr where
  /-- `exceptions.ControllerError(msg)` — the module's own exception class. -/
  | controllerError (msg : String)
  /-- `KeyError` from a dict lookup with an unknown key (the key is the
  optional text of an XML node). -/
  | keyError (key : Option String)
  /-- `AttributeError`: calling `.text` on the `None` returned by a failed
  `find`. -/
  | attributeError
  /-- `NameError`: evaluating an undefined name (e.g. `base`). -/
  | nameError (nm : String)
  /-- `ValueError` (bad `int()` argument, tuple-unpack length mismatch, or an
  XML parse error). -/
  | valueError (msg : String)
  /-- `IndexError` from indexing an element with no children. -/
  | indexError
  /-- `OSError` raised by `run` when a management binary is not executable. -/
  | osError
deriving DecidableEq, Repr

deriving instance DecidableEq for Except

/-- Outcome of one invocation of the external management tool. -/
inductive ToolResult where
  /-- The process produced output that parses to the given XML root. -/
  | output (e : Elem)
  /-- The output contains the insufficient-privileges marker text. -/
  | privilegeError
  /-- The output cannot be parsed as XML. -/
  | unparsable
  /-- One of the management binaries is absent or not executable. -/
  | missingBinary

/-- The external tool's behaviour over time: the result of running command
`cmd` with argument string `args` as the `t`-th process spawned. -/
def Env : Type := Nat → String → String → ToolResult

/-- `run(cmd, args)` from perc8xx.py: spawn the tool at time `t` and either
return the parsed XML root or raise. -/
def run (env : Env) (t : Nat) (cmd args : String) : Except PyErr Elem :=
  match env t cmd args with
  | .output e => .ok e
  | .privilegeError => .error (.controllerError
      "Not enough privileges to perform this operation. Are you root?")
  | .unparsable => .error (.valueError "ParseError")
  | .missingBinary => .error .osError

/-- `x.find(tag).text`: the text of the first child with the given tag;
raises `AttributeError` when no such child exists (Python calls `.text` on
`None`). -/
def findText (e : Elem) (t : String) : Except PyErr (Option String) :=
  match e.find t with
  | some c => .ok c.text
  | none => .error .attributeError

/-- Python string formatting of a value that is either a string or `None`. -/
def pyShow : Option String → String
  | some s => s
  | none => "None"

/-- Decimal digit-string to `Nat`, `none` when empty or non-digit. -/
def parseDigits (cs : List Char) : Option Nat :=
  if cs = [] then none
  else if cs.all Char.isDigit then
    some (cs.foldl (fun n c => 10 * n + (c.toNat - 48)) 0)
  else none

/-- Python `int(s)` on a string: an optional leading minus sign followed by
decimal digits. -/
def pyIntOfString (s : String) : Option Int :=
  match s.data with
  | '-' :: rest => (parseDigits rest).map (fun n => -(n : Int))
  | l => (parseDigits l).map (fun n => (n : Int))

/-- `int(s)` on the optional text of an XML node: fails on `None` and on
non-numeric text. -/
def pyInt : Option String → Except PyErr Int
  | none => .error (.valueError "int() argument must be a string or a number")
  | some s =>
      match pyIntOfString s with
      | some n => .ok n
      | none => .error (.valueError s)

/-- The `status_mapping` dict of `_parse_logical_drive`: logical-drive status
codes.  A key outside the table raises `KeyError`, the embedding of the
spec's `UnknownStatusCode` failure. -/
def ld_status_mapping (k : Option String) : Except PyErr String :=
  if k = some "2" then .ok "Online"
  else if k = some "4" then .ok "Failed"
  else .error (.keyError k)

/-- The `raid_mapping` dict of `_parse_logical_drive`: RAID layout codes. -/
def raid_mapping (k : Option String) : Except PyErr String :=
  if k = some "2" then .ok "RAID-0"
  else if k = some "4" then .ok "RAID-1"
  else .error (.keyError k)

/-- The `state_mapping` dict of `_parse_physical_drive`: physical-drive state
codes. -/
def pd_state_mapping (k : Option String) : Except PyErr String :=
  if k = some "1" then .ok "Ready"
  else if k = some "2" then .ok "Failed"
  else if k = some "4" then .ok "Online"
  else .error (.keyError k)

/-- The `status_mapping` dict of `_parse_physical_drive`: physical-drive
status codes. -/
def pd_status_mapping (k : Option String) : Except PyErr String :=
  if k = some "2" then .ok "Ok"
  else if k = some "3" then .ok "Non-Critical"
  else if k = some "4" then .ok "Failed"
  else .error (.keyError k)

/-- A populated `LogicalDrive` instance: the attributes assigned by
`_parse_logical_drive` plus `controller_id` and `name`, which the callers
assign afterwards (the parser leaves them at placeholder values). -/
structure LDRec where
  id : Option String
  device_path : Option String
  status : String
  type : String
  controller_id : String := ""
  name : String := ""
deriving DecidableEq, Repr

/-- `_parse_logical_drive(xml_input, logical_drive)`: extract id, device
path, normalized status and RAID type from one `VirtualDisk` record node,
in the source's evaluation order. -/
def _parse_logical_drive (x : Elem) : Except PyErr LDRec := do
  let idTxt ← findText x "LogicalDriveNum"
  let dev ← findText x "DeviceName"
  let st ← findText x "ObjStatus"
  let status ← ld_status_mapping st
  let ly ← findText x "Layout"
  let ty ← raid_mapping ly
  .ok { id := idTxt, device_path := dev, status := status, type := ty }

/-- A populated `PhysicalDrive` instance: the attributes assigned by
`_parse_physical_drive` plus `controller_id`, assigned by callers. -/
structure PDRec where
  id : String
  firmware : Option String
  size : Int
  model : Option String
  serial : Option String
  state : String
  status : String
  controller_id : String := ""
deriving DecidableEq, Repr

/-- `_parse_physical_drive(xml_input, physical_drive)`: extract the composite
id `channel:0:target`, firmware, size (raw `Length` floor-divided by the
decimal base 10^12, Python 2 integer division), model, serial and the
normalized state and status. -/
def _parse_physical_drive (x : Elem) : Except PyErr PDRec := do
  let ch ← findText x "Channel"
  let tid ← findText x "TargetID"
  let rev ← findText x "Revision"
  let lenTxt ← findText x "Length"
  let len ← pyInt lenTxt
  let pid ← findText x "ProductID"
  let ser ← findText x "DeviceSerialNumber"
  let stTxt ← findText x "ObjState"
  let state ← pd_state_mapping stTxt
  let statusTxt ← findText x "ObjStatus"
  let status ← pd_status_mapping statusTxt
  .ok { id := pyShow ch ++ ":0:" ++ pyShow tid, firmware := rev,
        size := len.fdiv 1000000000000, model := pid, serial := ser,
        state := state, status := status }

/-- `_check_exit_code(result, error)`: succeed exactly when the output has a
`CustomStat` child and the first such child's text equals `"0"`; otherwise
raise `ControllerError(error)`. -/
def _check_exit_code (result : Elem) (error : String) : Except PyErr Unit :=
  if (result.findall "CustomStat").length = 0 then
    .error (.controllerError error)
  else
    match result.find "CustomStat" with
    | none => .error .attributeError
    | some c =>
        if c.text = some "0" then .ok () else .error (.controllerError error)

/-- Python `s.strip('c')`: remove every leading and trailing `'c'`
character. -/
def pyStrip (s : String) (c : Char) : String :=
  String.mk (((s.data.dropWhile (fun a => a = c)).reverse.dropWhile
    (fun a => a = c)).reverse)

/-- Python `s.split(sep)` for a one-character separator, on character
lists: splitting at every occurrence, keeping empty pieces. -/
def splitChar (c : Char) : List Char → List (List Char)
  | [] => [[]]
  | x :: xs =>
      if x = c then [] :: splitChar c xs
      else
        match splitChar c xs with
        | h :: t => (x :: h) :: t
        | [] => [[x]]

/-- The composite-name parsing step of `get_logical_drive(name)`:
`name.strip('c').split('u')`, then unpack into exactly two components
(a `ValueError` when the split does not yield exactly two pieces). -/
def parseName (name : String) : Except PyErr (String × String) :=
  match splitChar 'u' (pyStrip name 'c').data with
  | [a, b] => .ok (String.mk a, String.mk b)
  | _ => .error (.valueError "unpack")

/-- The composite-name format `'c{0}u{1}'.format(controller_id, id)` used by
`get_logical_drives` and `LogicalDrive.__init__`. -/
def formatName (cid did : String) : String :=
  "c" ++ cid ++ "u" ++ did

/-- A constructed `Controller` instance: the id passed to `__init__` plus
`controller_info`, the first child of the `Controllers` node captured by the
single query run at construction time. -/
structure ControllerState where
  controller_id : String
  controller_info : Elem

/-- `Controller.__init__(controller_id)`: run one `omreport` query and store
its `Controllers[0]` node; raise when the `Controllers` section is absent. -/
def Controller.init (env : Env) (t : Nat) (cid : String) :
    Except PyErr (ControllerState × Nat) := do
  let res ← run env t "omreport" ("storage controller controller=" ++ cid)
  match res.find "Controllers" with
  | none => .error (.controllerError
      ("Unable to retrieve controller information for controller " ++ cid))
  | some ctls =>
      match ctls.children.head? with
      | none => .error .indexError
      | some first => .ok (⟨cid, first⟩, t + 1)

/-- The dict returned by `Controller.get_info`. -/
structure InfoPayload where
  firmware : Option String
  id : String
  model : Option String
  pci_id : Option String
  slot : Option String
deriving DecidableEq, Repr

/-- `Controller.get_info()`: digest the `controller_info` node captured at
construction; no tool invocation happens here.  The `env`/`t` arguments model
the tool state at the moment of the call; the body never consults them. -/
def Controller.get_info (_env : Env) (_t : Nat) (c : ControllerState) :
    Except PyErr InfoPayload := do
  let fw ← findText c.controller_info "FirmwareVer"
  let nm ← findText c.controller_info "Name"
  let pci ← findText c.controller_info "PciID"
  let slot ← findText c.controller_info "PCISlot"
  .ok { firmware := fw, id := c.controller_id, model := nm, pci_id := pci,
        slot := slot }

/-- `Controller.get_logical_drives()`: one fresh `omreport storage vdisk`
query, then one `LogicalDrive` record per `VirtualDisks` child, each given
this controller's id and the composite name. -/
def Controller.get_logical_drives (env : Env) (t : Nat) (cid : String) :
    Except PyErr (List LDRec × Nat) := do
  let res ← run env t "omreport" ("storage vdisk controller=" ++ cid)
  match res.find "VirtualDisks" with
  | none => .error (.controllerError
      ("Unable to retrieve logical drives information for controller " ++ cid))
  | some vd => do
      let recs ← vd.children.mapM (fun entry => do
        let p ← _parse_logical_drive entry
        pure { p with controller_id := cid,
                      name := formatName cid (pyShow p.id) })
      .ok (recs, t + 1)

/-- `Controller.get_physical_drives()`: one fresh `omreport storage pdisk`
query, then one `PhysicalDrive` record per `ArrayDisks` child. -/
def Controller.get_physical_drives (env : Env) (t : Nat) (cid : String) :
    Except PyErr (List PDRec × Nat) := do
  let res ← run env t "omreport" ("storage pdisk controller=" ++ cid)
  match res.find "ArrayDisks" with
  | none => .error (.controllerError
      ("Unable to retrieve physical drives information for controller " ++ cid))
  | some ad => do
      let recs ← ad.children.mapM (fun entry => do
        let p ← _parse_physical_drive entry
        pure { p with controller_id := cid })
      .ok (recs, t + 1)

/-- `LogicalDrive.__init__(controller_id, vdisk_id)` with both arguments
present is modelled by `some`; a `None` vdisk id leaves the instance
unpopulated (`none`), the state rejected later by `_check_initialised`.
On lookup the parsed record's `id` is overwritten with the caller-supplied
`vdisk_id` and the composite name is formatted from it. -/
def LogicalDrive.init (env : Env) (t : Nat) (cid : String)
    (vdid : Option String) : Except PyErr (Option LDRec × Nat) :=
  match vdid with
  | none => .ok (none, t)
  | some v => do
      let res ← run env t "omreport"
        ("storage vdisk controller=" ++ cid ++ " vdisk=" ++ v)
      match res.find "VirtualDisks" with
      | none => .error (.controllerError
          ("Unable to retrieve information for logical drive " ++ v ++
           " on controller " ++ cid))
      | some vd =>
          match vd.children.head? with
          | none => .error .indexError
          | some entry => do
              let p ← _parse_logical_drive entry
              .ok (some { p with controller_id := cid, id := some v,
                                 name := formatName cid v }, t + 1)

/-- `LogicalDrive.get_physical_drives()`: one fresh `omreport storage pdisk
controller=... vdisk=...` query listing the physical drives backing this
logical drive. -/
def LogicalDrive.get_physical_drives (env : Env) (t : Nat) (r : LDRec) :
    Except PyErr (List PDRec × Nat) := do
  let res ← run env t "omreport"
    ("storage pdisk controller=" ++ r.controller_id ++ " vdisk=" ++
     pyShow r.id)
  match res.find "ArrayDisks" with
  | none => .error (.controllerError
      ("Unable to find which physical drive is being used by logical drive " ++
       pyShow r.id ++ " on controller " ++ r.controller_id))
  | some ad => do
      let recs ← ad.children.mapM _parse_physical_drive
      .ok (recs, t + 1)

/-- The dict returned by `LogicalDrive.get_info`. -/
structure LDInfo where
  controller_id : String
  device_path : Option String
  id : Option String
  name : String
  physical_drives : List String
  status : String
  type : String
deriving DecidableEq, Repr

/-- `LogicalDrive.get_info()`: raise `Not initialised` on an unpopulated
instance; otherwise return the entity's fields plus the ids of the backing
physical drives obtained by one fresh query. -/
def LogicalDrive.get_info (env : Env) (t : Nat) (ld : Option LDRec) :
    Except PyErr (LDInfo × Nat) :=
  match ld with
  | none => .error (.controllerError "Not initialised")
  | some r => do
      let (pds, t') ← LogicalDrive.get_physical_drives env t r
      .ok ({ controller_id := r.controller_id, device_path := r.device_path,
             id := r.id, name := r.name,
             physical_drives := pds.map (fun a => a.id),
             status := r.status, type := r.type }, t')

/-- `LogicalDrive.delete()`: capture `get_info`, run the `omconfig
deletevdisk` command, check its exit status, then return the captured info
with `status` overwritten to the terminal removed marker. -/
def LogicalDrive.delete (env : Env) (t : Nat) (ld : Option LDRec) :
    Except PyErr (LDInfo × Nat) :=
  match ld with
  | none => .error (.controllerError "Not initialised")
  | some r => do
      let (info, t1) ← LogicalDrive.get_info env t (some r)
      let res ← run env t1 "omconfig"
        ("storage vdisk controller=" ++ r.controller_id ++ " vdisk=" ++
         pyShow r.id ++ " action=deletevdisk")
      let _ ← _check_exit_code res
        ("Failed to delete logical drive " ++ r.controller_id ++
         " on controller " ++ r.controller_id)
      .ok ({ info with status := "Successfully removed" }, t1 + 1)

/-- `Controller.create_logical_drive(physical_drive)`: snapshot the vdisk id
list, run the fixed-policy `omconfig createvdisk` command, check its exit
status, snapshot again, and diff the two id sets.  When the difference is
not a single id the source executes `raise base.ControllerError(...)` where
the name `base` is undefined, so a `NameError` is raised; otherwise the
single new drive is looked up and its full info returned. -/
def Controller.create_logical_drive (env : Env) (t : Nat) (cid : String)
    (physical_drive : String) : Except PyErr (LDInfo × Nat) := do
  let (before, t1) ← Controller.get_logical_drives env t cid
  let beforeIds := before.map (fun x => x.id)
  let res ← run env t1 "omconfig"
    ("storage controller controller=" ++ cid ++
     " action=createvdisk pdisk=" ++ physical_drive ++
     " raid=r0 size=max stripesize=64kb diskcachepolicy=disabled" ++
     " readpolicy=ara writepolicy=wb")
  let _ ← _check_exit_code res
    ("Failed to create a logical drive on controller " ++ cid ++
     " with physical drives " ++ physical_drive)
  let (after, t2) ← Controller.get_logical_drives env (t1 + 1) cid
  let afterIds := after.map (fun x => x.id)
  let newIds := (afterIds.filter (fun i => ¬ i ∈ beforeIds)).dedup
  match newIds with
  | [x] => do
      let (ld, t3) ← LogicalDrive.init env t2 cid x
      LogicalDrive.get_info env t3 ld
  | _ => .error (.nameError "base")

/-- `get_logical_drive(name)`: parse the composite name and look the drive
up directly. -/
def get_logical_drive (env : Env) (t : Nat) (name : String) :
    Except PyErr (Option LDRec × Nat) := do
  let (cid, ldid) ← parseName name
  LogicalDrive.init env t cid (some ldid)

/-- `PhysicalDrive.blink_led()`: run the blink command, check its exit
status, return `True`. -/
def PhysicalDrive.blink_led (env : Env) (t : Nat) (cid pdid : String) :
    Except PyErr (Bool × Nat) := do
  let res ← run env t "omconfig"
    ("storage pdisk action=blink controller=" ++ cid ++ " pdisk=" ++ pdid)
  let _ ← _check_exit_code res
    ("Unable to switch on the indicator LED for physical drive " ++ pdid ++
     " on controller " ++ cid)
  .ok (true, t + 1)

/-- `PhysicalDrive.unblink_led()`: run the unblink command, check its exit
status, return `True`. -/
def PhysicalDrive.unblink_led (env : Env) (t : Nat) (cid pdid : String) :
    Except PyErr (Bool × Nat) := do
  let res ← run env t "omconfig"
    ("storage pdisk action=unblink controller=" ++ cid ++ " pdisk=" ++ pdid)
  let _ ← _check_exit_code res
    ("Unable to switch off the indicator LED for physical drive " ++ pdid ++
     " on controller " ++ cid)
  .ok (true, t + 1)

/-- The interface the facade in `src/utils/controller.py` consumes from the
dynamically selected backend module: the classes and functions it calls,
with abstract entity state types so the facade theorems quantify over every
backend behaviour. -/
structure Backend (C L P : Type) where
  getControllers : Unit → Except PyErr (List C)
  controllerInit : String → Except PyErr C
  ctlGetInfo : C → Except PyErr InfoPayload
  ctlGetLogicalDrives : C → Except PyErr (List L)
  ctlGetPhysicalDrives : C → Except PyErr (List P)
  ctlCreateLogicalDrive : C → String → Except PyErr LDInfo
  ldInit : String → String → Except PyErr L
  ldGetInfo : L → Except PyErr LDInfo
  ldDelete : L → Except PyErr LDInfo
  getLogicalDriveByName : String → Except PyErr L
  getPhysicalDrive : String → String → Except PyErr P
  pdGetInfo : P → Except PyErr PDRec

/-- What a facade operation hands back to the automation agent: either a
normalized success payload or the diagnostic string built in its `except`
clause. -/
inductive FacadeRes (α : Type) where
  | payload (a : α)
  | diagnostic (s : String)
deriving DecidableEq, Repr

/-- A bare `try: return <body> except: return <diagnostic>` block: every
exception raised by the body is swallowed and replaced by the diagnostic
string, so the block itself never raises. -/
def pyTry {α : Type} (body : Except PyErr α) (diag : String) :
    Except PyErr (FacadeRes α) :=
  match body with
  | .ok a => .ok (.payload a)
  | .error _ => .ok (.diagnostic diag)

/-- A `pyTry` block always returns a facade result, never an error. -/
theorem pyTry_ok {α : Type} (body : Except PyErr α) (diag : String) :
    ∃ r, pyTry body diag = Except.ok r := by
  cases body <;> exact ⟨_, rfl⟩

/-- Facade `info([controller_id])`: both branches wrap the backend calls in a
bare `except` returning a diagnostic string, so the result is always `ok`. -/
def f_info {C L P : Type} (b : Backend C L P) (cid : Option String) :
    Except PyErr (FacadeRes (List InfoPayload ⊕ InfoPayload)) :=
  match cid with
  | none =>
      pyTry (do
          let cs ← b.getControllers ()
          let l ← cs.mapM b.ctlGetInfo
          pure (Sum.inl l))
        "Failed to get controllers information"
  | some i =>
      pyTry (do
          let c ← b.controllerInit i
          let p ← b.ctlGetInfo c
          pure (Sum.inr p))
        ("Failed to get information for controller " ++ i)

/-- Facade `logical_drive(controller_id, [logical_drive_id])`: the one
operation whose body has no `try`/`except`, so backend exceptions propagate
to the caller as `Except.error`. -/
def f_logical_drive {C L P : Type} (b : Backend C L P) (cid : String)
    (ldid : Option String) :
    Except PyErr (FacadeRes (List LDInfo ⊕ LDInfo)) :=
  match ldid with
  | none => do
      let c ← b.controllerInit cid
      let ls ← b.ctlGetLogicalDrives c
      let infos ← ls.mapM b.ldGetInfo
      .ok (.payload (.inl infos))
  | some i => do
      let l ← b.ldInit cid i
      let inf ← b.ldGetInfo l
      .ok (.payload (.inr inf))

/-- Facade `logical_drive_by_name(device_name)`: bare `except` returning a
not-present diagnostic. -/
def f_logical_drive_by_name {C L P : Type} (b : Backend C L P)
    (device_name : String) : Except PyErr (FacadeRes LDInfo) :=
  pyTry (do
      let l ← b.getLogicalDriveByName device_name
      b.ldGetInfo l)
    ("Logical drive " ++ device_name ++ " not present")

/-- Facade `logical_drive_delete(controller_id, logical_drive_id)`: bare
`except` returning a failure diagnostic. -/
def f_logical_drive_delete {C L P : Type} (b : Backend C L P)
    (cid ldid : String) : Except PyErr (FacadeRes LDInfo) :=
  pyTry (do
      let l ← b.ldInit cid ldid
      b.ldDelete l)
    ("Failed to delete logical drive " ++ ldid ++ " on controller " ++ cid)

/-- Facade `logical_drive_create(controller_id, physical_drive_id)`: bare
`except` returning a failure diagnostic. -/
def f_logical_drive_create {C L P : Type} (b : Backend C L P)
    (cid pdid : String) : Except PyErr (FacadeRes LDInfo) :=
  pyTry (do
      let c ← b.controllerInit cid
      b.ctlCreateLogicalDrive c pdid)
    ("Failed to create a logical drive with physical drive " ++ pdid ++
     " on controller " ++ cid)

/-- Facade `physical_drive(controller_id, [physical_drive_id])`: both
branches wrap the backend calls in a bare `except`. -/
def f_physical_drive {C L P : Type} (b : Backend C L P) (cid : String)
    (pdid : Option String) :
    Except PyErr (FacadeRes (List PDRec ⊕ PDRec)) :=
  match pdid with
  | none =>
      pyTry (do
          let c ← b.controllerInit cid
          let ps ← b.ctlGetPhysicalDrives c
          let l ← ps.mapM b.pdGetInfo
          pure (Sum.inl l))
        ("Failed to get information for physical drives on controller " ++
         cid)
  | some p =>
      pyTry (do
          let d ← b.getPhysicalDrive cid p
          let r ← b.pdGetInfo d
          pure (Sum.inr r))
        ("Physical drive " ++ p ++ " on controller " ++ cid ++
         " not present")

/-- The module-level `models` table of `src/utils/controller.py`: PCI id to
backend module name. -/
def models : List (String × String) :=
  [("10000079", "perc8xx"), ("1000005b", "perc8xx"), ("13c11004", "lsi3ware")]

/-- The module-level scan loop: walk the detected PCI ids in order and bind
`model` to the mapping of the first id present in `models`; `model` stays
unbound when none matches. -/
def selectModel (pciIds : List String) : Option String :=
  pciIds.findSome? (fun p => (models.find? (fun kv => kv.1 = p)).map
    (fun kv => kv.2))

/-- `_fallback()`: the diagnostic every facade operation returns when the
`controller` backend binding is unavailable. -/
def _fallback : String :=
  "The storage-controllers module needs to be installed or missing " ++
  "controller plugin"

/-- Outcome of executing the module body of `src/utils/controller.py`. -/
inductive ModuleInit where
  /-- A PCI id matched and the backend module imported: `controller` is
  bound to the named backend. -/
  | loaded (backendName : String)
  /-- A PCI id matched but the import raised `ImportError`, which the bare
  `except ImportError: pass` swallows: the module loads with `controller`
  unbound, so every operation falls back to `_fallback`. -/
  | loadedNoBackend
  /-- The module body raised and the import of the facade module itself
  fails. -/
  | importCrash (e : PyErr)

/-- The module body of `src/utils/controller.py`: scan PCI ids, then
evaluate `getattr(__import__('storage_controllers.controllers',
fromlist=[model]), model)` inside `try ... except ImportError`.  When no PCI
id matched, `model` was never assigned, so evaluating it raises `NameError`,
which the `except ImportError` clause does not catch. -/
def moduleInit (pciIds : List String) (importOk : String → Bool) :
    ModuleInit :=
  match selectModel pciIds with
  | some m => if importOk m then .loaded m else .loadedNoBackend
  | none => .importCrash (.nameError "model")

/-- Modelled from the spec: the `depends` decorator imported from
`salt.utils.decorators` (external to this repository).  Per the spec's
backend-selector contract, an operation decorated with
`depends('controller', fallback_function=_fallback)` runs its body when the
`controller` binding exists and returns the fallback diagnostic when it does
not; when the module itself failed to import there is no operation to call
and the error surfaces instead. -/
def dependsCall {α : Type} (mi : ModuleInit)
    (body : String → Except PyErr (FacadeRes α)) :
    Except PyErr (FacadeRes α) :=
  match mi with
  | .loaded m => body m
  | .loadedNoBackend => .ok (.diagnostic _fallback)
  | .importCrash e => .error e

/-! ## Concrete fixtures used by witnesses and counterexamples -/

/-- A leaf element carrying only text. -/
def mkText (tg v : String) : Elem := ⟨tg, some v, []⟩

/-- A `VirtualDisk` record node with the four fields the logical-drive
parser reads. -/
def mkLDEntry (num dev objst layout : String) : Elem :=
  ⟨"VirtualDisk", none,
    [mkText "LogicalDriveNum" num, mkText "DeviceName" dev,
     mkText "ObjStatus" objst, mkText "Layout" layout]⟩

/-- An `ArrayDisk` record node with the eight fields the physical-drive
parser reads. -/
def mkPDEntry (ch tid rev len pid ser st sta : String) : Elem :=
  ⟨"ArrayDisk", none,
    [mkText "Channel" ch, mkText "TargetID" tid, mkText "Revision" rev,
     mkText "Length" len, mkText "ProductID" pid,
     mkText "DeviceSerialNumber" ser, mkText "ObjState" st,
     mkText "ObjStatus" sta]⟩

/-- An `omreport storage vdisk` response document. -/
def vdiskDoc (entries : List Elem) : Elem :=
  ⟨"OMA", none, [⟨"VirtualDisks", none, entries⟩]⟩

/-- An `omreport storage pdisk` response document. -/
def pdiskDoc (entries : List Elem) : Elem :=
  ⟨"OMA", none, [⟨"ArrayDisks", none, entries⟩]⟩

/-- An `omconfig` response document carrying one `CustomStat` exit-status
node. -/
def statDoc (v : String) : Elem :=
  ⟨"OMA", none, [mkText "CustomStat" v]⟩

/-- A `Controller` record node as found inside a `Controllers` section. -/
def ctlNode (fw : String) : Elem :=
  ⟨"Controller", none,
    [mkText "FirmwareVer" fw, mkText "Name" "PERC H810",
     mkText "PciID" "10000079", mkText "PCISlot" "1"]⟩

/-- An `omreport storage controller controller=N` response document. -/
def ctlDoc (fw : String) : Elem :=
  ⟨"OMA", none, [⟨"Controllers", none, [ctlNode fw]⟩]⟩

/-! ## Generic inversion helper for `Except` binds -/

/-- Inverting a successful `Except` bind. -/
theorem except_bind_ok {α β : Type} {e : Except PyErr α}
    {f : α → Except PyErr β} {b : β} (h : e >>= f = Except.ok b) :
    ∃ a, e = Except.ok a ∧ f a = Except.ok b := by
  cases e with
  | error err => simp [Bind.bind, Except.bind] at h
  | ok a => exact ⟨a, rfl, by simpa [Bind.bind, Except.bind] using h⟩

/-! ## Claim C3 -/

/-- Claim C3: the code-normalization maps are exactly the finite tables
logical-drive status (2 to Online, 4 to Failed), RAID layout (2 to RAID-0,
4 to RAID-1), physical-drive state (1 to Ready, 2 to Failed, 4 to Online),
physical-drive status (2 to Ok, 3 to Non-Critical, 4 to Failed); for every
code in a table the mapping is deterministic, and for every code outside
the table the lookup fails with the unknown-status-code error (the
`KeyError` of the dict lookup) rather than returning any default value. -/
theorem c3_normalization_tables :
    (∀ s v, ld_status_mapping s = Except.ok v ↔
      ((s = some "2" ∧ v = "Online") ∨ (s = some "4" ∧ v = "Failed")))
  ∧ (∀ s, s ≠ some "2" → s ≠ some "4" →
      ld_status_mapping s = Except.error (PyErr.keyError s))
  ∧ (∀ s v, raid_mapping s = Except.ok v ↔
      ((s = some "2" ∧ v = "RAID-0") ∨ (s = some "4" ∧ v = "RAID-1")))
  ∧ (∀ s, s ≠ some "2" → s ≠ some "4" →
      raid_mapping s = Except.error (PyErr.keyError s))
  ∧ (∀ s v, pd_state_mapping s = Except.ok v ↔
      ((s = some "1" ∧ v = "Ready") ∨ (s = some "2" ∧ v = "Failed") ∨
       (s = some "4" ∧ v = "Online")))
  ∧ (∀ s, s ≠ some "1" → s ≠ some "2" → s ≠ some "4" →
      pd_state_mapping s = Except.error (PyErr.keyError s))
  ∧ (∀ s v, pd_status_mapping s = Except.ok v ↔
      ((s = some "2" ∧ v = "Ok") ∨ (s = some "3" ∧ v = "Non-Critical") ∨
       (s = some "4" ∧ v = "Failed")))
  ∧ (∀ s, s ≠ some "2" → s ≠ some "3" → s ≠ some "4" →
      pd_status_mapping s = Except.error (PyErr.keyError s)) := by
  refine ⟨fun s v => ?_, fun s h1 h2 => ?_, fun s v => ?_, fun s h1 h2 => ?_,
          fun s v => ?_, fun s h1 h2 h3 => ?_, fun s v => ?_,
          fun s h1 h2 h3 => ?_⟩ <;>
    simp only [ld_status_mapping, raid_mapping, pd_state_mapping,
      pd_status_mapping] <;>
    split_ifs <;> simp_all <;> exact eq_comm

/-- Witness for C3: a code outside every table fails with the unknown-code
error, and a known code maps to its table value. -/
theorem c3_normalization_tables_witness :
    ld_status_mapping (some "9") = Except.error (PyErr.keyError (some "9"))
  ∧ raid_mapping (some "9") = Except.error (PyErr.keyError (some "9"))
  ∧ pd_state_mapping (some "9") = Except.error (PyErr.keyError (some "9"))
  ∧ pd_status_mapping (some "9") = Except.error (PyErr.keyError (some "9"))
  ∧ ld_status_mapping (some "2") = Except.ok "Online" :=
  ⟨c3_normalization_tables.2.1 (some "9") (by decide) (by decide),
   c3_normalization_tables.2.2.2.1 (some "9") (by decide) (by decide),
   c3_normalization_tables.2.2.2.2.2.1 (some "9") (by decide) (by decide)
     (by decide),
   c3_normalization_tables.2.2.2.2.2.2.2 (some "9") (by decide) (by decide)
     (by decide),
   (c3_normalization_tables.1 (some "2") "Online").mpr (Or.inl ⟨rfl, rfl⟩)⟩

/-! ## Claim C8 -/

/-- Claim C8: physical-drive capacity is normalized by dividing the raw
reported `Length` value by the decimal base 10^12 (never by the binary base
2^40): every successful parse yields `size = Length / 10^12` (Python 2
floor division), the concrete input 1000000000000 normalizes to 1, and at
that input the binary conversion would give a different value. -/
theorem c8_capacity_decimal :
    (∀ x p, _parse_physical_drive x = Except.ok p →
      ∃ s n, findText x "Length" = Except.ok (some s) ∧
        pyIntOfString s = some n ∧ p.size = n.fdiv 1000000000000)
  ∧ _parse_physical_drive
      (mkPDEntry "0" "1" "FW1" "1000000000000" "ST100" "SER1" "1" "2") =
      Except.ok { id := "0:0:1", firmware := some "FW1", size := 1,
                  model := some "ST100", serial := some "SER1",
                  state := "Ready", status := "Ok" }
  ∧ (1000000000000 : Int).fdiv (2 ^ 40) ≠ (1000000000000 : Int).fdiv (10 ^ 12) := by
  refine ⟨?_, by decide, by decide⟩
  intro x p h
  unfold _parse_physical_drive at h
  obtain ⟨ch, hch, h1⟩ := except_bind_ok h
  clear h
  obtain ⟨tid, htid, h2⟩ := except_bind_ok h1
  clear h1
  obtain ⟨rev, hrev, h3⟩ := except_bind_ok h2
  clear h2
  obtain ⟨lenTxt, hlen, h4⟩ := except_bind_ok h3
  clear h3
  obtain ⟨len, hpy, h5⟩ := except_bind_ok h4
  clear h4
  obtain ⟨pid, hpid, h6⟩ := except_bind_ok h5
  clear h5
  obtain ⟨ser, hser, h7⟩ := except_bind_ok h6
  clear h6
  obtain ⟨stTxt, hst, h8⟩ := except_bind_ok h7
  clear h7
  obtain ⟨st, hstm, h9⟩ := except_bind_ok h8
  clear h8
  obtain ⟨staTxt, hsta, h10⟩ := except_bind_ok h9
  clear h9
  obtain ⟨sta, hstam, h11⟩ := except_bind_ok h10
  clear h10
  cases lenTxt with
  | none => simp [pyInt] at hpy
  | some s =>
      cases hn : pyIntOfString s with
      | none => simp [pyInt, hn] at hpy
      | some n =>
          simp only [pyInt, hn] at hpy
          cases hpy
          cases h11
          exact ⟨s, len, hlen, hn, rfl⟩

/-- Witness for C8: the size formula instantiated at a concrete record with
raw Length 1000000000000 gives normalized size 1. -/
theorem c8_capacity_decimal_witness :
    ∃ s n, findText
        (mkPDEntry "0" "1" "FW1" "1000000000000" "ST100" "SER1" "1" "2")
        "Length" = Except.ok (some s) ∧
      pyIntOfString s = some n ∧
      ({ id := "0:0:1", firmware := some "FW1", size := 1,
         model := some "ST100", serial := some "SER1", state := "Ready",
         status := "Ok" } : PDRec).size = n.fdiv 1000000000000 :=
  c8_capacity_decimal.1
    (mkPDEntry "0" "1" "FW1" "1000000000000" "ST100" "SER1" "1" "2")
    { id := "0:0:1", firmware := some "FW1", size := 1,
      model := some "ST100", serial := some "SER1", state := "Ready",
      status := "Ok" }
    (by decide)

/-! ## Claim C6 -/

/-- Claim C6: for every creation, deletion, or LED-toggle invocation, the
exit-status check succeeds if and only if the parsed tool output contains
its dedicated status child node (`CustomStat`) with text equal to "0"; any
other text value, or the node's absence, makes the check raise the
operation-specific error.  The hypothesis states that the output carries at
most one status node, as the dedicated-status-node convention prescribes. -/
theorem c6_exit_status (e : Elem) (err : String)
    (h : (e.findall "CustomStat").length ≤ 1) :
    _check_exit_code e err = Except.ok () ↔
      ∃ c ∈ e.children, c.tag = "CustomStat" ∧ c.text = some "0" := by
  unfold _check_exit_code Elem.find
  cases hl : e.findall "CustomStat" with
  | nil =>
      simp only [hl, List.length_nil, if_pos rfl]
      constructor
      · intro hc
        exact absurd hc (by simp)
      · rintro ⟨c, hc, htag, htext⟩
        have : c ∈ e.findall "CustomStat" := by
          unfold Elem.findall
          exact List.mem_filter.mpr ⟨hc, by simp [htag]⟩
        rw [hl] at this
        exact absurd this (by simp)
  | cons c rest =>
      have hrest : rest = [] := by
        rw [hl] at h
        cases rest with
        | nil => rfl
        | cons d ds => simp at h
      subst hrest
      simp only [hl, List.length_cons, List.length_nil, List.head?]
      have hc_mem : c ∈ e.findall "CustomStat" := by
        rw [hl]
        exact List.mem_cons_self c []
      have hmem : c ∈ e.children ∧ c.tag = "CustomStat" := by
        simpa [Elem.findall] using hc_mem
      constructor
      · intro hok
        refine ⟨c, hmem.1, hmem.2, ?_⟩
        by_cases ht : c.text = some "0"
        · exact ht
        · simp [ht] at hok
      · rintro ⟨d, hd, htag, htext⟩
        have : d ∈ e.findall "CustomStat" := by
          unfold Elem.findall
          exact List.mem_filter.mpr ⟨hd, by simp [htag]⟩
        rw [hl] at this
        have hdc : d = c := by simpa using this
        subst hdc
        simp [htext]

/-- Witness for C6: a document whose single `CustomStat` node has text "0"
passes the exit-status check. -/
theorem c6_exit_status_witness :
    _check_exit_code (statDoc "0") "op failed" = Except.ok () :=
  (c6_exit_status (statDoc "0") "op failed" (by decide)).mpr
    ⟨mkText "CustomStat" "0", by simp [statDoc], rfl, rfl⟩

/-! ## Claim C10 -/

/-- Claim C10: for every direct logical-drive lookup
`LogicalDrive(controller_id, vdisk_id)` that succeeds, the returned entity's
`id` equals the caller-supplied `vdisk_id` and its `name` equals
`c<controller_id>u<vdisk_id>`, whatever record `p` (with whatever
`LogicalDriveNum`) the parser extracted from the tool output: the
caller-supplied id overwrites the parsed one. -/
theorem c10_lookup_id_override (env : Env) (t : Nat) (cid vdid : String)
    (res vd entry : Elem) (p : LDRec)
    (hrun : run env t "omreport"
      ("storage vdisk controller=" ++ cid ++ " vdisk=" ++ vdid) =
      Except.ok res)
    (hvd : res.find "VirtualDisks" = some vd)
    (hentry : vd.children.head? = some entry)
    (hp : _parse_logical_drive entry = Except.ok p) :
    LogicalDrive.init env t cid (some vdid) =
      Except.ok (some { p with controller_id := cid, id := some vdid,
                               name := formatName cid vdid }, t + 1) := by
  unfold LogicalDrive.init
  simp only [Bind.bind, Except.bind, hrun, hvd, hentry, hp]

/-- Witness for C10: the tool reports `LogicalDriveNum` 99, the caller asked
for vdisk 5, and the returned entity has id 5 and name c2u5. -/
theorem c10_lookup_id_override_witness :
    LogicalDrive.init
      (fun _ _ _ => ToolResult.output (vdiskDoc [mkLDEntry "99" "/dev/sde" "2" "2"]))
      0 "2" (some "5") =
      Except.ok (some { id := some "5", device_path := some "/dev/sde",
                        status := "Online", type := "RAID-0",
                        controller_id := "2", name := "c2u5" }, 1) :=
  c10_lookup_id_override
    (fun _ _ _ => ToolResult.output (vdiskDoc [mkLDEntry "99" "/dev/sde" "2" "2"]))
    0 "2" "5" (vdiskDoc [mkLDEntry "99" "/dev/sde" "2" "2"])
    ⟨"VirtualDisks", none, [mkLDEntry "99" "/dev/sde" "2" "2"]⟩
    (mkLDEntry "99" "/dev/sde" "2" "2")
    { id := some "99", device_path := some "/dev/sde", status := "Online",
      type := "RAID-0" }
    rfl rfl rfl (by decide)

/-! ## Claim C4 -/

/-- Claim C4: the delete-logical-drive operation, when its exit check
succeeds, returns a payload equal to the drive's pre-deletion info in every
field (controller_id, device_path, id, name, physical_drives, type) except
`status`, which is overwritten to the terminal removed value; when the
tool's exit indicator is not success, it fails with the deletion-failed
error raised by the exit check. -/
theorem c4_delete_frame (env : Env) (t : Nat) (r : LDRec) (i : LDInfo)
    (t1 : Nat) (res : Elem)
    (hinfo : LogicalDrive.get_info env t (some r) = Except.ok (i, t1))
    (hrun : run env t1 "omconfig"
      ("storage vdisk controller=" ++ r.controller_id ++ " vdisk=" ++
       pyShow r.id ++ " action=deletevdisk") = Except.ok res) :
    (_check_exit_code res
        ("Failed to delete logical drive " ++ r.controller_id ++
         " on controller " ++ r.controller_id) = Except.ok () →
      LogicalDrive.delete env t (some r) =
        Except.ok ({ controller_id := i.controller_id,
                     device_path := i.device_path, id := i.id,
                     name := i.name,
                     physical_drives := i.physical_drives,
                     status := "Successfully removed",
                     type := i.type }, t1 + 1))
  ∧ (∀ e, _check_exit_code res
        ("Failed to delete logical drive " ++ r.controller_id ++
         " on controller " ++ r.controller_id) = Except.error e →
      LogicalDrive.delete env t (some r) = Except.error e) := by
  constructor
  · intro hok
    unfold LogicalDrive.delete
    simp only [Bind.bind, Except.bind, hinfo, hrun, hok]
  · intro e he
    unfold LogicalDrive.delete
    simp only [Bind.bind, Except.bind, hinfo, hrun, he]

/-- The pre-deletion entity used by the C4 witness. -/
def rC4 : LDRec :=
  { id := some "2", device_path := some "/dev/sdb", status := "Online",
    type := "RAID-0", controller_id := "0", name := "c0u2" }

/-- Tool behaviour for the C4 witness: the backing-drives query answers
first, then the delete command exits with status 0. -/
def envC4 : Env := fun t _ _ =>
  if t = 0 then
    .output (pdiskDoc [mkPDEntry "0" "1" "FW1" "2000000000000" "ST100"
      "SER1" "4" "2"])
  else .output (statDoc "0")

/-- Witness for C4: a successful delete returns the pre-deletion info with
only the status overwritten. -/
theorem c4_delete_frame_witness :
    LogicalDrive.delete envC4 0 (some rC4) =
      Except.ok ({ controller_id := "0", device_path := some "/dev/sdb",
                   id := some "2", name := "c0u2",
                   physical_drives := ["0:0:1"],
                   status := "Successfully removed",
                   type := "RAID-0" }, 2) :=
  (c4_delete_frame envC4 0 rC4
    { controller_id := "0", device_path := some "/dev/sdb", id := some "2",
      name := "c0u2", physical_drives := ["0:0:1"], status := "Online",
      type := "RAID-0" }
    1 (statDoc "0") (by decide) rfl).1 (by decide)

/-! ## Claim C5 -/

/-- String concatenation acts as list concatenation on the underlying
characters. -/
theorem string_data_append (s t : String) : (s ++ t).data = s.data ++ t.data :=
  rfl

/-- `dropWhile` leaves a list unchanged when its head fails the predicate. -/
theorem dropWhile_eq_self_of_head (p : Char → Bool) (l : List Char)
    (h : ∀ hd, l.head? = some hd → p hd = false) : l.dropWhile p = l := by
  cases l with
  | nil => rfl
  | cons a as =>
      rw [List.dropWhile_cons_of_neg]
      simp [h a rfl]

/-- Splitting a list free of the separator yields the single piece. -/
theorem splitChar_eq_single (sep : Char) (xs : List Char)
    (h : ∀ c ∈ xs, c ≠ sep) : splitChar sep xs = [xs] := by
  induction xs with
  | nil => rfl
  | cons a as ih =>
      simp only [splitChar]
      rw [if_neg (by exact_mod_cast h a (List.mem_cons_self a as))]
      rw [ih (fun c hc => h c (List.mem_cons_of_mem a hc))]

/-- Splitting around a single separator occurrence yields the two pieces. -/
theorem splitChar_append_sep (sep : Char) (xs ys : List Char)
    (hx : ∀ c ∈ xs, c ≠ sep) (hy : ∀ c ∈ ys, c ≠ sep) :
    splitChar sep (xs ++ sep :: ys) = [xs, ys] := by
  induction xs with
  | nil =>
      rw [List.nil_append]
      simp only [splitChar, if_true]
      rw [splitChar_eq_single sep ys hy]
  | cons a as ih =>
      rw [List.cons_append]
      simp only [splitChar]
      rw [if_neg (by exact_mod_cast hx a (List.mem_cons_self a as))]
      rw [ih (fun c hc => hx c (List.mem_cons_of_mem a hc))]

/-- A decimal digit is neither the letter c nor the letter u. -/
theorem digit_ne_cu {ch : Char} (h : ch.isDigit = true) :
    ch ≠ 'c' ∧ ch ≠ 'u' := by
  constructor <;> rintro rfl <;> simp [Char.isDigit] at h

/-- Claim C5 (amended): composite logical-drive names round-trip — for
every controller id and logical-drive id made of decimal digits, parsing
the formatted name `c<controllerId>u<logicalDriveId>` returns exactly the
pair (controllerId, logicalDriveId).  (The further part of the claim, that
the parser tolerates only this exact pattern, is refuted by the
counterexample: `strip('c')` also accepts missing or repeated leading and
trailing c characters.) -/
theorem c5_roundtrip (cid did : String)
    (hc : ∀ ch ∈ cid.data, ch.isDigit = true)
    (hd : ∀ ch ∈ did.data, ch.isDigit = true) :
    parseName (formatName cid did) = Except.ok (cid, did) := by
  have hdata : (formatName cid did).data =
      'c' :: (cid.data ++ 'u' :: did.data) := by
    simp [formatName, string_data_append]
  have h1 : ∀ hd', (cid.data ++ 'u' :: did.data).head? = some hd' →
      (decide (hd' = 'c')) = false := by
    intro hd' hh
    cases hcd : cid.data with
    | nil =>
        rw [hcd] at hh
        simp only [List.nil_append, List.head?_cons, Option.some.injEq] at hh
        simp [← hh]
    | cons a as =>
        rw [hcd] at hh
        simp only [List.cons_append, List.head?_cons, Option.some.injEq] at hh
        have ha : a.isDigit = true :=
          hc a (by rw [hcd]; exact List.mem_cons_self a as)
        simp [← hh, (digit_ne_cu ha).1]
  have h2 : ∀ hd', ((cid.data ++ 'u' :: did.data).reverse).head? = some hd' →
      (decide (hd' = 'c')) = false := by
    intro hd' hh
    rw [List.reverse_append, List.reverse_cons] at hh
    cases hdd : did.data.reverse with
    | nil =>
        rw [hdd] at hh
        simp only [List.nil_append, List.cons_append, List.head?_cons,
          Option.some.injEq] at hh
        simp [← hh]
    | cons b bs =>
        rw [hdd] at hh
        simp only [List.cons_append, List.append_assoc, List.head?_cons,
          Option.some.injEq] at hh
        have hb : b ∈ did.data := by
          have : b ∈ did.data.reverse := by
            rw [hdd]; exact List.mem_cons_self b bs
          simpa using this
        simp [← hh, (digit_ne_cu (hd b hb)).1]
  have hlist : ((((formatName cid did).data.dropWhile
      (fun a => a = 'c')).reverse.dropWhile
      (fun a => a = 'c')).reverse) = cid.data ++ 'u' :: did.data := by
    rw [hdata]
    rw [List.dropWhile_cons_of_pos (by simp)]
    rw [dropWhile_eq_self_of_head _ _ h1]
    rw [dropWhile_eq_self_of_head _ _ h2]
    rw [List.reverse_reverse]
  have hsplit := splitChar_append_sep 'u' cid.data did.data
    (fun c hc' => (digit_ne_cu (hc c hc')).2)
    (fun c hd' => (digit_ne_cu (hd c hd')).2)
  unfold parseName pyStrip
  dsimp only
  rw [hlist, hsplit]

/-- Counterexample for C5: the string "2u35" does not have the exact
pattern `c<controllerId>u<logicalDriveId>` — no string of that format lacks
the leading c — yet the parser accepts it and returns (2, 35), so the
parser tolerates more than the exact pattern. -/
theorem c5_not_only_exact_pattern :
    parseName "2u35" = Except.ok ("2", "35")
  ∧ ¬ ∃ cid did : String, "2u35" = formatName cid did := by
  constructor
  · rfl
  · rintro ⟨cid, did, h⟩
    have hfmt : (formatName cid did).data =
        'c' :: (cid.data ++ 'u' :: did.data) := by
      simp [formatName, string_data_append]
    have h2 := congrArg String.data h
    rw [hfmt] at h2
    simp at h2

/-- Witness for C5: the spec's own example, c2u35 parses to controller 2,
drive 35. -/
theorem c5_roundtrip_witness : parseName "c2u35" = Except.ok ("2", "35") :=
  c5_roundtrip "2" "35" (by decide) (by decide)

/-! ## Claim C1 -/

/-- Tool behaviour for the create workflow with before ids 1,2: the listing
before the command, a success exit status, the listing after with ids
1,2,3, then the lookup of the new drive 3 and of its backing physical
drives. -/
def envC1Ok : Env := fun t _ _ =>
  if t = 0 then .output (vdiskDoc [mkLDEntry "1" "/dev/sda" "2" "2",
    mkLDEntry "2" "/dev/sdb" "2" "2"])
  else if t = 1 then .output (statDoc "0")
  else if t = 2 then .output (vdiskDoc [mkLDEntry "1" "/dev/sda" "2" "2",
    mkLDEntry "2" "/dev/sdb" "2" "2", mkLDEntry "3" "/dev/sdc" "2" "2"])
  else if t = 3 then .output (vdiskDoc [mkLDEntry "3" "/dev/sdc" "2" "2"])
  else .output (pdiskDoc [mkPDEntry "0" "3" "FW1" "1000000000000" "ST100"
    "SER3" "4" "2"])

/-- Same before listing and success exit status, but the after listing is
unchanged (still ids 1,2): the id-set difference is empty. -/
def envC1NoGrowth : Env := fun t _ _ =>
  if t = 0 then .output (vdiskDoc [mkLDEntry "1" "/dev/sda" "2" "2",
    mkLDEntry "2" "/dev/sdb" "2" "2"])
  else if t = 1 then .output (statDoc "0")
  else .output (vdiskDoc [mkLDEntry "1" "/dev/sda" "2" "2",
    mkLDEntry "2" "/dev/sdb" "2" "2"])

/-- Same before listing and success exit status, but the after listing
holds ids 1,2,3,4: two new ids, so identity cannot be attributed. -/
def envC1TwoNew : Env := fun t _ _ =>
  if t = 0 then .output (vdiskDoc [mkLDEntry "1" "/dev/sda" "2" "2",
    mkLDEntry "2" "/dev/sdb" "2" "2"])
  else if t = 1 then .output (statDoc "0")
  else .output (vdiskDoc [mkLDEntry "1" "/dev/sda" "2" "2",
    mkLDEntry "2" "/dev/sdb" "2" "2", mkLDEntry "3" "/dev/sdc" "2" "2",
    mkLDEntry "4" "/dev/sdd" "2" "2"])

/-- Claim C1, evaluated at the spec's own example inputs: with before ids
1,2 and after ids 1,2,3 the workflow returns the full details of the single
new drive 3; with after 1,2 (empty difference) and with after 1,2,3,4 (two
new ids) the workflow fails — but it raises a `NameError`, not the
module's `ControllerError`: line 249 of perc8xx.py executes
`raise base.ControllerError(...)` and the name `base` is undefined in that
module. -/
theorem c1_create_diff_demo :
    Controller.create_logical_drive envC1Ok 0 "0" "0:0:3" =
      Except.ok ({ controller_id := "0", device_path := some "/dev/sdc",
                   id := some "3", name := "c0u3",
                   physical_drives := ["0:0:3"], status := "Online",
                   type := "RAID-0" }, 5)
  ∧ Controller.create_logical_drive envC1NoGrowth 0 "0" "0:0:3" =
      Except.error (PyErr.nameError "base")
  ∧ Controller.create_logical_drive envC1TwoNew 0 "0" "0:0:3" =
      Except.error (PyErr.nameError "base") :=
  ⟨by decide, by decide, by decide⟩

/-! ## Claim C2 -/

/-- A possible behaviour of the underlying backend in which entity
construction raises — exactly what perc8xx does whenever the expected
response section is missing from the tool output. -/
def throwingBackend : Backend Unit Unit Unit :=
  { getControllers := fun _ => .error (.controllerError
      "Unable to retrieve controller information")
    controllerInit := fun _ => .error (.controllerError
      "Unable to retrieve controller information")
    ctlGetInfo := fun _ => .error (.controllerError
      "Unable to retrieve controller information")
    ctlGetLogicalDrives := fun _ => .error (.controllerError
      "Unable to retrieve controller information")
    ctlGetPhysicalDrives := fun _ => .error (.controllerError
      "Unable to retrieve controller information")
    ctlCreateLogicalDrive := fun _ _ => .error (.controllerError
      "Unable to retrieve controller information")
    ldInit := fun _ _ => .error (.controllerError
      "Unable to retrieve controller information")
    ldGetInfo := fun _ => .error (.controllerError
      "Unable to retrieve controller information")
    ldDelete := fun _ => .error (.controllerError
      "Unable to retrieve controller information")
    getLogicalDriveByName := fun _ => .error (.controllerError
      "Unable to retrieve controller information")
    getPhysicalDrive := fun _ _ => .error (.controllerError
      "Unable to retrieve controller information")
    pdGetInfo := fun _ => .error (.controllerError
      "Unable to retrieve controller information") }

/-- Counterexample for C2: the facade operation `logical_drive` has no
`try`/`except`, so for a backend whose entity constructor raises, the
exception propagates past the facade boundary to the caller — in both the
listing and the single-drive form. -/
theorem c2_facade_can_throw :
    f_logical_drive throwingBackend "0" none =
      Except.error (PyErr.controllerError
        "Unable to retrieve controller information")
  ∧ f_logical_drive throwingBackend "0" (some "1") =
      Except.error (PyErr.controllerError
        "Unable to retrieve controller information") :=
  ⟨rfl, rfl⟩

/-- Claim C2 (amended): the five facade operations info,
logical_drive_by_name, logical_drive_delete, logical_drive_create and
physical_drive always return a normalized success payload or a normalized
failure descriptor string, for every input and every behaviour of the
underlying backend; `logical_drive` alone lacks the exception handler and
can propagate backend exceptions (see the counterexample). -/
theorem c2_facade_never_throws (C L P : Type) (b : Backend C L P)
    (cid ldid pdid nm : String) (ocid opdid : Option String) :
    (∃ r, f_info b ocid = Except.ok r)
  ∧ (∃ r, f_logical_drive_by_name b nm = Except.ok r)
  ∧ (∃ r, f_logical_drive_delete b cid ldid = Except.ok r)
  ∧ (∃ r, f_logical_drive_create b cid pdid = Except.ok r)
  ∧ (∃ r, f_physical_drive b cid opdid = Except.ok r) := by
  refine ⟨?_, ?_, ?_, ?_, ?_⟩
  · unfold f_info
    cases ocid with
    | none => exact pyTry_ok _ _
    | some i => exact pyTry_ok _ _
  · exact pyTry_ok _ _
  · exact pyTry_ok _ _
  · exact pyTry_ok _ _
  · unfold f_physical_drive
    cases opdid with
    | none => exact pyTry_ok _ _
    | some p => exact pyTry_ok _ _

/-! ## Claim C7 -/

/-- Claim C7, evaluated on the module-initialization logic: when a detected
PCI id is in the mapping table the matching backend is selected (perc8xx
for 1000005b even after a non-matching id, lsi3ware for 13c11004), and when
the import of the selected backend fails with ImportError every operation
returns the unavailable diagnostic; but when NO detected PCI id is in the
table, the module body raises `NameError` — the scan loop never assigned
`model` and the `except ImportError` clause does not catch `NameError` — so
the facade module itself fails to import instead of degrading. -/
theorem c7_backend_selection_demo :
    moduleInit ["abcd1234"] (fun _ => true) =
      ModuleInit.importCrash (PyErr.nameError "model")
  ∧ moduleInit [] (fun _ => true) =
      ModuleInit.importCrash (PyErr.nameError "model")
  ∧ moduleInit ["ffffffff", "1000005b"] (fun _ => true) =
      ModuleInit.loaded "perc8xx"
  ∧ moduleInit ["13c11004"] (fun _ => true) = ModuleInit.loaded "lsi3ware"
  ∧ (∀ (α : Type) (body : String → Except PyErr (FacadeRes α)),
      dependsCall ModuleInit.loadedNoBackend body =
        Except.ok (FacadeRes.diagnostic _fallback))
  ∧ (∀ (α : Type) (body : String → Except PyErr (FacadeRes α)),
      dependsCall (ModuleInit.importCrash (PyErr.nameError "model")) body =
        Except.error (PyErr.nameError "model")) :=
  ⟨rfl, rfl, rfl, rfl, fun _ _ => rfl, fun _ _ => rfl⟩

/-! ## Claim C9 -/

/-- Tool behaviour whose controller query answers firmware 1.0.0 at time 0
and firmware 2.0.0 from time 1 on: the controller's firmware field changes
between the two constructions. -/
def envC9 : Env := fun t _ _ =>
  if t = 0 then .output (ctlDoc "1.0.0") else .output (ctlDoc "2.0.0")

/-- Counterexample for C9: two `Controller` objects for the same controller
id, constructed one query apart while the tool state changed in between;
reading both afterwards, at the same moment and under the same tool state,
returns different payloads.  Hence `Controller.get_info` digests entity
state cached at construction — at most one of the two calls can reflect the
tool state at the moment of the call, so not every read performs a fresh
query at call time. -/
theorem c9_get_info_reads_cached_state :
    Controller.init envC9 0 "0" = Except.ok (⟨"0", ctlNode "1.0.0"⟩, 1)
  ∧ Controller.init envC9 1 "0" = Except.ok (⟨"0", ctlNode "2.0.0"⟩, 2)
  ∧ Controller.get_info envC9 2 ⟨"0", ctlNode "1.0.0"⟩ ≠
      Controller.get_info envC9 2 ⟨"0", ctlNode "2.0.0"⟩ :=
  ⟨rfl, rfl, by decide⟩

/-- Mapping away the returned time component commutes with a bind that only
pairs the payload with a time. -/
theorem map_fst_bind_ok_pair {α : Type} (e : Except PyErr α) (t t' : Nat) :
    Except.map Prod.fst (e >>= fun a => Except.ok (a, t)) =
      Except.map Prod.fst (e >>= fun a => Except.ok (a, t')) := by
  cases e <;> rfl

/-- Claim C9 (amended): every listing or lookup read operation queries the
tool at call time and each facade-level read constructs fresh entities, so
against an unchanged underlying tool state repeated reads — controller
info through a fresh construction, logical- and physical-drive listings,
and direct logical-drive lookup — return identical normalized payloads at
whatever times they are invoked.  (`Controller.get_info` itself digests
the snapshot captured by the single query run at construction; see the
counterexample.) -/
theorem c9_fresh_reads_idempotent (env : Env)
    (h : ∀ t cmd args, env t cmd args = env 0 cmd args) (t t' : Nat)
    (cid v : String) :
    ((Controller.init env t cid).bind fun p =>
        Controller.get_info env p.2 p.1) =
      ((Controller.init env t' cid).bind fun p =>
        Controller.get_info env p.2 p.1)
  ∧ (Controller.get_logical_drives env t cid).map Prod.fst =
      (Controller.get_logical_drives env t' cid).map Prod.fst
  ∧ (Controller.get_physical_drives env t cid).map Prod.fst =
      (Controller.get_physical_drives env t' cid).map Prod.fst
  ∧ (LogicalDrive.init env t cid (some v)).map Prod.fst =
      (LogicalDrive.init env t' cid (some v)).map Prod.fst := by
  have hrun : ∀ cmd args, run env t cmd args = run env t' cmd args := by
    intro cmd args
    unfold run
    rw [h t cmd args, h t' cmd args]
  refine ⟨?_, ?_, ?_, ?_⟩
  · unfold Controller.init
    rw [hrun]
    cases run env t' "omreport" ("storage controller controller=" ++ cid) with
    | error e => rfl
    | ok res =>
        dsimp only [Bind.bind, Except.bind]
        cases res.find "Controllers" with
        | none => rfl
        | some ctls =>
            dsimp only
            cases ctls.children.head? with
            | none => rfl
            | some first => rfl
  · unfold Controller.get_logical_drives
    rw [hrun]
    cases run env t' "omreport" ("storage vdisk controller=" ++ cid) with
    | error e => rfl
    | ok res =>
        dsimp only [Bind.bind, Except.bind]
        cases res.find "VirtualDisks" with
        | none => rfl
        | some vd =>
            dsimp only
            exact map_fst_bind_ok_pair _ _ _
  · unfold Controller.get_physical_drives
    rw [hrun]
    cases run env t' "omreport" ("storage pdisk controller=" ++ cid) with
    | error e => rfl
    | ok res =>
        dsimp only [Bind.bind, Except.bind]
        cases res.find "ArrayDisks" with
        | none => rfl
        | some ad =>
            dsimp only
            exact map_fst_bind_ok_pair _ _ _
  · unfold LogicalDrive.init
    dsimp only
    rw [hrun]
    cases run env t' "omreport"
        ("storage vdisk controller=" ++ cid ++ " vdisk=" ++ v) with
    | error e => rfl
    | ok res =>
        dsimp only [Bind.bind, Except.bind]
        cases res.find "VirtualDisks" with
        | none => rfl
        | some vd =>
            dsimp only
            cases vd.children.head? with
            | none => rfl
            | some entry =>
                dsimp only
                cases _parse_logical_drive entry with
                | error e => rfl
                | ok p => rfl

/-- A tool state that never changes. -/
def envC9Const : Env := fun _ _ _ => .output (ctlDoc "1.0.0")

/-- Witness for the amended C9: under an unchanged tool state the reads at
times 0 and 7 agree. -/
theorem c9_fresh_reads_idempotent_witness :
    ((Controller.init envC9Const 0 "0").bind fun p =>
        Controller.get_info envC9Const p.2 p.1) =
      ((Controller.init envC9Const 7 "0").bind fun p =>
        Controller.get_info envC9Const p.2 p.1)
  ∧ (Controller.get_logical_drives envC9Const 0 "0").map Prod.fst =
      (Controller.get_logical_drives envC9Const 7 "0").map Prod.fst
  ∧ (Controller.get_physical_drives envC9Const 0 "0").map Prod.fst =
      (Controller.get_physical_drives envC9Const 7 "0").map Prod.fst
  ∧ (LogicalDrive.init envC9Const 0 "0" (some "1")).map Prod.fst =
      (LogicalDrive.init envC9Const 7 "0" (some "1")).map Prod.fst :=
  c9_fresh_reads_idempotent envC9Const (fun _ _ _ => rfl) 0 7 "0" "1"
